import Mathlib

/-!
Verification development for the cubefs-csi volume lifecycle controller.

The development shallowly embeds the two source files of the repository:

* `pkg/chubaofs/controllerserver.go` — the CSI controller server
  (`CreateVolume`, `DeleteVolume`, `ValidateVolumeCapabilities`, the
  unimplemented operations, capability validation).
* `pkg/cubefs/cfs_server.go` — the cluster control-plane client
  (`newCfsServer`, `getValueWithDefault`, `createVolume`, `deleteVolume`,
  `forEachMasterAddr`, `executeRequest`).

Go `map[string]string` is modelled as a total function `String → String`
where a missing key reads as `""`, matching Go map-read semantics used by
the code.  Go `int64` values are modelled as `Int`; where the source's
behaviour depends on the 64-bit range the range appears explicitly.
HTTP traffic is modelled by an oracle argument mapping a request URL to
the outcome that `executeRequest` produces for it (either a decoded
response or a transport-level error); the code downstream of
`executeRequest` is embedded literally.  The external cluster call made
by the controller server (`createOrDeleteVolume`, which lives outside the
embedded files) is likewise an oracle argument, and the embedding of
`CreateVolume` additionally returns the list of cluster calls it issued,
so that claims about "no cluster call is made" are statable.
-/

namespace chubaofs

/-- gRPC status codes used by `controllerserver.go`. -/
inductive StatusCode where
  | ok
  | invalidArgument
  | unimplemented
  | unavailable
  | internal
  deriving DecidableEq, Repr

/-- A Go `error` value as produced by this file: either a gRPC status error
(`status.Error(code, msg)`) or a plain error. -/
inductive GoError where
  | grpc (code : StatusCode) (msg : String)
  | plain (msg : String)
  deriving DecidableEq, Repr

/-- Embeds `csi.ControllerServiceCapability_RPC_Type` (the constructors this code
mentions, plus a few others of the protobuf enum). -/
inductive RpcType where
  | UNKNOWN
  | CREATE_DELETE_VOLUME
  | PUBLISH_UNPUBLISH_VOLUME
  | LIST_VOLUMES
  | GET_CAPACITY
  | CREATE_DELETE_SNAPSHOT
  deriving DecidableEq, Repr

/-- String rendering of an `RpcType`, standing for Go `cap.String()`. -/
def RpcType.toName : RpcType → String
  | .UNKNOWN => "UNKNOWN"
  | .CREATE_DELETE_VOLUME => "CREATE_DELETE_VOLUME"
  | .PUBLISH_UNPUBLISH_VOLUME => "PUBLISH_UNPUBLISH_VOLUME"
  | .LIST_VOLUMES => "LIST_VOLUMES"
  | .GET_CAPACITY => "GET_CAPACITY"
  | .CREATE_DELETE_SNAPSHOT => "CREATE_DELETE_SNAPSHOT"

/-- Embeds `csi.ControllerServiceCapability_RPC`. -/
structure ControllerServiceCapabilityRPC where
  type : RpcType
  deriving DecidableEq, Repr

/-- Embeds `csi.ControllerServiceCapability`; the `rpc` field is a pointer in Go,
hence an `Option`. -/
structure ControllerServiceCapability where
  rpc : Option ControllerServiceCapabilityRPC
  deriving DecidableEq, Repr

/-- Go `cap.GetRpc().GetType()`: getters on a nil pointer yield the zero
value, `UNKNOWN`. -/
def ControllerServiceCapability.getRpcType (c : ControllerServiceCapability) : RpcType :=
  match c.rpc with
  | none => .UNKNOWN
  | some r => r.type

/-- Embeds `csi.VolumeCapability_MountVolume` (only the field this code reads). -/
structure MountVolume where
  fsType : String
  deriving DecidableEq, Repr

/-- Embeds `csi.VolumeCapability_AccessMode_Mode` (the protobuf enum). -/
inductive AccessModeMode where
  | UNKNOWN
  | SINGLE_NODE_WRITER
  | SINGLE_NODE_READER_ONLY
  | MULTI_NODE_READER_ONLY
  | MULTI_NODE_SINGLE_WRITER
  | MULTI_NODE_MULTI_WRITER
  deriving DecidableEq, Repr

/-- Embeds `csi.VolumeCapability_AccessMode`. -/
structure AccessMode where
  mode : AccessModeMode
  deriving DecidableEq, Repr

/-- Embeds `csi.VolumeCapability`: `mount` is `GetMount()` (nil when the
capability carries a block access type instead), `accessMode` is the
`access_mode` pointer field. -/
structure VolumeCapability where
  mount : Option MountVolume
  accessMode : Option AccessMode
  deriving DecidableEq, Repr

/-- Go `cap.GetAccessMode().GetMode()`: nil access mode reads as `UNKNOWN`. -/
def VolumeCapability.getAccessModeMode (c : VolumeCapability) : AccessModeMode :=
  match c.accessMode with
  | none => .UNKNOWN
  | some am => am.mode

/-- Embeds `csi.CapacityRange` (only `required_bytes` is read by this code). -/
structure CapacityRange where
  requiredBytes : Int
  deriving DecidableEq, Repr

/-- Embeds `csi.CreateVolumeRequest`.  `volumeCapabilities` is `Option` because the
code distinguishes a nil slice from an empty one; `parameters` is the
caller's opaque parameter map, carried as an association list since the
code only passes it through unchanged. -/
structure CreateVolumeRequest where
  name : String
  capacityRange : Option CapacityRange
  volumeCapabilities : Option (List VolumeCapability)
  parameters : List (String × String)
  deriving DecidableEq, Repr

/-- Go `req.GetCapacityRange().GetRequiredBytes()`: nil range reads as 0. -/
def CreateVolumeRequest.getRequiredBytes (req : CreateVolumeRequest) : Int :=
  match req.capacityRange with
  | none => 0
  | some r => r.requiredBytes

/-- Embeds `csi.Volume` as filled in by `CreateVolume`. -/
structure Volume where
  volumeId : String
  capacityBytes : Int
  volumeContext : List (String × String)
  deriving DecidableEq, Repr

/-- Embeds `csi.CreateVolumeResponse`. -/
structure CreateVolumeResponse where
  volume : Volume
  deriving DecidableEq, Repr

/-- Embeds `util.GIB` = 1024 * 1024 * 1024 bytes. -/
def GIB : Int := 1073741824

/-- Embeds `MinVolumeSize = util.GIB` (controllerserver.go line 50). -/
def MinVolumeSize : Int := GIB

/-- Embeds `defaultOwner = "chubaofs"`. -/
def defaultOwner : String := "chubaofs"

/-- Embeds `util.RoundUpSize` from `k8s.io/kubernetes/pkg/volume/util`:
`roundedUp := volumeSizeBytes / allocationUnitBytes` (Go division truncates
toward zero, hence `Int.tdiv`), incremented when the (truncating) remainder
is positive. -/
def RoundUpSize (volumeSizeBytes allocationUnitBytes : Int) : Int :=
  let roundedUp := volumeSizeBytes.tdiv allocationUnitBytes
  if volumeSizeBytes.tmod allocationUnitBytes > 0 then roundedUp + 1 else roundedUp

/-- Embeds `util.RoundUpSizeInt`: converts the rounded `int64` to Go `int` and
fails when the value changes.  On the 64-bit platforms this driver targets
`int` is 64 bits wide, so the conversion loses information exactly when the
value lies outside the `int64` range. -/
def RoundUpSizeInt (volumeSizeBytes allocationUnitBytes : Int) : Except String Int :=
  let roundedUp := RoundUpSize volumeSizeBytes allocationUnitBytes
  if roundedUp < -(2 ^ 63) ∨ 2 ^ 63 ≤ roundedUp then
    .error "capacity overflows int"
  else
    .ok roundedUp

/-- The `controllerServer` struct. -/
structure controllerServer where
  caps : List ControllerServiceCapability
  masterAddress : String
  deriving DecidableEq, Repr

/-- Embeds `getControllerServiceCapabilities`. -/
def getControllerServiceCapabilities (cl : List RpcType) : List ControllerServiceCapability :=
  cl.map (fun t => { rpc := some { type := t } })

/-- Embeds `NewControllerServer`. -/
def NewControllerServer (masterAddress : String) : controllerServer :=
  { caps := getControllerServiceCapabilities [.CREATE_DELETE_VOLUME]
    masterAddress := masterAddress }

/-- Embeds `validateControllerServiceRequest`: `UNKNOWN` is always accepted; any
other type must appear among the server's advertised capabilities, else an
`InvalidArgument` status error is returned. -/
def controllerServer.validateControllerServiceRequest
    (cs : controllerServer) (c : RpcType) : Option GoError :=
  if c = .UNKNOWN then none
  else if cs.caps.any (fun cap => c = cap.getRpcType) then none
  else some (.grpc .invalidArgument ("unsupported capability " ++ c.toName))

/-- One invocation of `createOrDeleteVolume` (defined outside the embedded
files): the arguments the controller passes to the cluster layer. -/
structure ClusterCall where
  isDelete : Bool
  masterAddr : String
  volumeId : String
  owner : String
  capacityGIB : Int
  deriving DecidableEq, Repr

/-- The mount-option selection loop of `CreateVolume`: iterates the
capability slice in order, keeping the mount options of the last capability
that has a mount access type. -/
def selectMountOptions (caps : List VolumeCapability) : Option MountVolume :=
  caps.foldl (fun acc c => match c.mount with | some m => some m | none => acc) none

/-- Embeds `controllerServer.CreateVolume` (controllerserver.go lines 73-145).
`cluster` stands for `createOrDeleteVolume`, whose definition lives outside
the embedded files; the second component of the result records the cluster
calls issued, so that the absence of a cluster call is observable.  The
fstype test embeds Go `strings.Compare(x, "chubaofs") != 0`, which holds
exactly when `x ≠ "chubaofs"`. -/
def controllerServer.CreateVolume (cs : controllerServer)
    (cluster : ClusterCall → Option GoError) (req : CreateVolumeRequest) :
    Except GoError CreateVolumeResponse × List ClusterCall :=
  match cs.validateControllerServiceRequest .CREATE_DELETE_VOLUME with
  | some e => (.error e, [])
  | none =>
    if req.name.length = 0 then
      (.error (.grpc .invalidArgument "Name missing in request"), [])
    else
      match req.volumeCapabilities with
      | none => (.error (.grpc .invalidArgument "Volume Capabilities missing in request"), [])
      | some caps =>
        match selectMountOptions caps with
        | none => (.error (.grpc .invalidArgument "Volume lack of mount access type"), [])
        | some mountOptions =>
          if mountOptions.fsType ≠ "chubaofs" then
            (.error (.grpc .invalidArgument "Volume fstype is not chubaofs"), [])
          else
            let capacity :=
              if req.getRequiredBytes < MinVolumeSize then MinVolumeSize
              else req.getRequiredBytes
            match RoundUpSizeInt capacity GIB with
            | .error msg => (.error (.grpc .invalidArgument msg), [])
            | .ok capacityInGIB =>
              let paras := req.parameters
              let owner := defaultOwner
              let masterAddr := cs.masterAddress
              let volumeId := req.name
              let call : ClusterCall :=
                { isDelete := false, masterAddr := masterAddr, volumeId := volumeId
                  owner := owner, capacityGIB := capacityInGIB }
              match cluster call with
              | some e => (.error e, [call])
              | none =>
                (.ok { volume := { volumeId := volumeId, capacityBytes := capacity
                                   volumeContext := paras } },
                 [call])

/-- Embeds `csi.ValidateVolumeCapabilitiesRequest` (the fields this code reads). -/
structure ValidateVolumeCapabilitiesRequest where
  volumeContext : List (String × String)
  volumeCapabilities : List VolumeCapability
  parameters : List (String × String)
  deriving DecidableEq, Repr

/-- Embeds `csi.ValidateVolumeCapabilitiesResponse_Confirmed`. -/
structure ValidateConfirmed where
  volumeContext : List (String × String)
  volumeCapabilities : List VolumeCapability
  parameters : List (String × String)
  deriving DecidableEq, Repr

/-- Embeds `csi.ValidateVolumeCapabilitiesResponse` (always built with the
`Confirmed` field set by this code). -/
structure ValidateVolumeCapabilitiesResponse where
  confirmed : ValidateConfirmed
  deriving DecidableEq, Repr

/-- The access-mode check loop of `ValidateVolumeCapabilities`: the first
capability whose mode is not `MULTI_NODE_MULTI_WRITER` aborts with an
`InvalidArgument` status error. -/
def validateCapsLoop (caps : List VolumeCapability) : Option GoError :=
  match caps with
  | [] => none
  | c :: rest =>
    if c.getAccessModeMode ≠ AccessModeMode.MULTI_NODE_MULTI_WRITER then
      some (.grpc .invalidArgument "No multi node multi writer capability")
    else validateCapsLoop rest

/-- Embeds `controllerServer.ValidateVolumeCapabilities` (controllerserver.go
lines 176-190). -/
def controllerServer.ValidateVolumeCapabilities (_cs : controllerServer)
    (req : ValidateVolumeCapabilitiesRequest) :
    Except GoError ValidateVolumeCapabilitiesResponse :=
  match validateCapsLoop req.volumeCapabilities with
  | some e => .error e
  | none =>
    .ok { confirmed := { volumeContext := req.volumeContext
                         volumeCapabilities := req.volumeCapabilities
                         parameters := req.parameters } }

/-- Embeds `csi.ControllerPublishVolumeRequest` (opaque: never inspected). -/
structure ControllerPublishVolumeRequest : Type

/-- Embeds `csi.ControllerPublishVolumeResponse`. -/
structure ControllerPublishVolumeResponse : Type

/-- Embeds `csi.ControllerUnpublishVolumeRequest` (opaque: never inspected). -/
structure ControllerUnpublishVolumeRequest : Type

/-- Embeds `csi.ControllerUnpublishVolumeResponse`. -/
structure ControllerUnpublishVolumeResponse : Type

/-- Embeds `csi.GetCapacityRequest` (opaque: never inspected). -/
structure GetCapacityRequest : Type

/-- Embeds `csi.GetCapacityResponse`. -/
structure GetCapacityResponse : Type

/-- Embeds `csi.ListVolumesRequest` (opaque: never inspected). -/
structure ListVolumesRequest : Type

/-- Embeds `csi.ListVolumesResponse`. -/
structure ListVolumesResponse : Type

/-- Embeds `csi.CreateSnapshotRequest` (opaque: never inspected). -/
structure CreateSnapshotRequest : Type

/-- Embeds `csi.CreateSnapshotResponse`. -/
structure CreateSnapshotResponse : Type

/-- Embeds `csi.DeleteSnapshotRequest` (opaque: never inspected). -/
structure DeleteSnapshotRequest : Type

/-- Embeds `csi.DeleteSnapshotResponse`. -/
structure DeleteSnapshotResponse : Type

/-- Embeds `csi.ListSnapshotsRequest` (opaque: never inspected). -/
structure ListSnapshotsRequest : Type

/-- Embeds `csi.ListSnapshotsResponse`. -/
structure ListSnapshotsResponse : Type

/-- Embeds `controllerServer.ControllerPublishVolume`: unconditionally
`status.Error(codes.Unimplemented, "")`. -/
def controllerServer.ControllerPublishVolume (_cs : controllerServer)
    (_req : ControllerPublishVolumeRequest) :
    Except GoError ControllerPublishVolumeResponse :=
  .error (.grpc .unimplemented "")

/-- Embeds `controllerServer.ControllerUnpublishVolume`: unconditionally
`status.Error(codes.Unimplemented, "")`. -/
def controllerServer.ControllerUnpublishVolume (_cs : controllerServer)
    (_req : ControllerUnpublishVolumeRequest) :
    Except GoError ControllerUnpublishVolumeResponse :=
  .error (.grpc .unimplemented "")

/-- Embeds `controllerServer.GetCapacity`: unconditionally
`status.Error(codes.Unimplemented, "")`. -/
def controllerServer.GetCapacity (_cs : controllerServer)
    (_req : GetCapacityRequest) : Except GoError GetCapacityResponse :=
  .error (.grpc .unimplemented "")

/-- Embeds `controllerServer.ListVolumes`: unconditionally
`status.Error(codes.Unimplemented, "")`. -/
def controllerServer.ListVolumes (_cs : controllerServer)
    (_req : ListVolumesRequest) : Except GoError ListVolumesResponse :=
  .error (.grpc .unimplemented "")

/-- Embeds `controllerServer.CreateSnapshot`: unconditionally
`status.Error(codes.Unimplemented, "")`. -/
def controllerServer.CreateSnapshot (_cs : controllerServer)
    (_req : CreateSnapshotRequest) : Except GoError CreateSnapshotResponse :=
  .error (.grpc .unimplemented "")

/-- Embeds `controllerServer.DeleteSnapshot`: unconditionally
`status.Error(codes.Unimplemented, "")`. -/
def controllerServer.DeleteSnapshot (_cs : controllerServer)
    (_req : DeleteSnapshotRequest) : Except GoError DeleteSnapshotResponse :=
  .error (.grpc .unimplemented "")

/-- Embeds `controllerServer.ListSnapshots`: unconditionally
`status.Error(codes.Unimplemented, "")`. -/
def controllerServer.ListSnapshots (_cs : controllerServer)
    (_req : ListSnapshotsRequest) : Except GoError ListSnapshotsResponse :=
  .error (.grpc .unimplemented "")

end chubaofs

namespace cubefs

/-- Errors produced by `cfs_server.go`: gRPC status errors
(`status.Errorf(codes..., ...)`) or plain `fmt.Errorf` errors. -/
inductive CfsError where
  | unavailable (msg : String)
  | internal (msg : String)
  | generic (msg : String)
  deriving DecidableEq, Repr

/-- Key constants of `cfs_server.go`. -/
def KVolumeName : String := "volName"

/-- Embeds `KMasterAddr`. -/
def KMasterAddr : String := "masterAddr"

/-- Embeds `KLogLevel`. -/
def KLogLevel : String := "logLevel"

/-- Embeds `KLogDir`. -/
def KLogDir : String := "logDir"

/-- Embeds `KOwner`. -/
def KOwner : String := "owner"

/-- Embeds `KCrossZone`. -/
def KCrossZone : String := "crossZone"

/-- Embeds `KEnableToken`. -/
def KEnableToken : String := "enableToken"

/-- Embeds `KZoneName`. -/
def KZoneName : String := "zoneName"

/-- Embeds `KConsulAddr`. -/
def KConsulAddr : String := "consulAddr"

/-- Embeds `KVolType`. -/
def KVolType : String := "volType"

/-- Embeds `defaultClientConfPath`. -/
def defaultClientConfPath : String := "/cfs/conf/"

/-- Embeds `defaultLogDir`. -/
def defaultLogDir : String := "/cfs/logs/"

/-- Embeds `defaultLogLevel`. -/
def defaultLogLevel : String := "info"

/-- Embeds `jsonFileSuffix`. -/
def jsonFileSuffix : String := ".json"

/-- Embeds `defaultConsulAddr`. -/
def defaultConsulAddr : String := "http://consul-service.cubefs.svc.cluster.local:8500"

/-- Embeds `defaultVolType`. -/
def defaultVolType : String := "0"

/-- Embeds `ErrCodeVolNotExists = 7`. -/
def ErrCodeVolNotExists : Int := 7

/-- Embeds `ErrCodeDuplicateVol = 12`. -/
def ErrCodeDuplicateVol : Int := 12

/-- A Go `map[string]string`: a total function where a missing key reads
as the zero value `""`. -/
def StrMap : Type := String → String

/-- Go map assignment `m[k] = v`. -/
def StrMap.set (m : StrMap) (k v : String) : StrMap :=
  fun x => if x = k then v else m x

/-- Go map read `m[k]`. -/
def StrMap.get (m : StrMap) (k : String) : String := m k

/-- The `cfsServer` struct. -/
structure cfsServer where
  clientConfFile : String
  masterAddrs : List String
  clientConf : StrMap

/-- The decoded create/delete/expand response `cfsServerResponse`
(`{code, msg, data}`). -/
structure cfsServerResponse where
  code : Int
  msg : String
  data : String
  deriving DecidableEq, Repr

/-- Embeds `getValueWithDefault` (cfs_server.go lines 105-112). -/
def getValueWithDefault (param : StrMap) (key : String) (defaultValue : String) : String :=
  let value := param.get key
  if value.length = 0 then defaultValue else value

/-- Embeds `csicommon.ShortenString` from `pkg/csi-common` (outside the embedded
files): returns the string truncated to the given maximum length. -/
def ShortenString (s : String) (maxLen : Nat) : String :=
  if s.length ≤ maxLen then s else s.take maxLen

/-- Embeds `newCfsServer` (cfs_server.go lines 82-103).  `nowNano` stands for
`time.Now().UnixNano()`, an input of the computation; the map updates are
threaded in source order, mirroring the in-place Go map mutation. -/
def newCfsServer (volName : String) (param : StrMap) (nowNano : Int) :
    Except CfsError cfsServer :=
  let masterAddr := param.get KMasterAddr
  if volName.length = 0 ∨ masterAddr.length = 0 then
    .error (.generic "invalid argument for initializing cfsServer")
  else
    let newVolName := getValueWithDefault param KVolumeName volName
    let clientConfFile := defaultClientConfPath ++ newVolName ++ jsonFileSuffix
    let newOwner := ShortenString ("csi_" ++ toString nowNano) 20
    let p1 := param.set KMasterAddr masterAddr
    let p2 := p1.set KVolumeName newVolName
    let p3 := p2.set KOwner (getValueWithDefault p2 KOwner newOwner)
    let p4 := p3.set KLogLevel (getValueWithDefault p3 KLogLevel defaultLogLevel)
    let p5 := p4.set KLogDir (defaultLogDir ++ newVolName)
    let p6 := p5.set KConsulAddr (getValueWithDefault p5 KConsulAddr defaultConsulAddr)
    let p7 := p6.set KVolType (getValueWithDefault p6 KVolType defaultVolType)
    .ok { clientConfFile := clientConfFile
          masterAddrs := masterAddr.splitOn ","
          clientConf := p7 }

/-- Embeds `forEachMasterAddr` (cfs_server.go lines 161-176), with one addition:
besides the Go return value (the `err` variable: `none` for success, the
last attempt's error otherwise) the embedding also returns the sequence of
addresses on which the attempt function `f` was invoked, in invocation
order, so that claims about which endpoints are tried are statable.  The
loop invokes `f` on each address in list order, breaks on the first `none`,
and keeps the latest error in `err`. -/
def forEachMasterAddrGo (f : String → Option CfsError) :
    List String → Option CfsError → Option CfsError × List String
  | [], err => (err, [])
  | addr :: rest, _ =>
    match f addr with
    | none => (none, [addr])
    | some e =>
      let r := forEachMasterAddrGo f rest (some e)
      (r.1, addr :: r.2)

/-- Embeds `cfsServer.forEachMasterAddr`: the loop starting from `err = nil`.
The `stage` argument is used only for logging in the source. -/
def cfsServer.forEachMasterAddr (cs : cfsServer) (_stage : String)
    (f : String → Option CfsError) : Option CfsError × List String :=
  forEachMasterAddrGo f cs.masterAddrs none

/-- The URL built by `createVolume` for one master address. -/
def createVolUrl (addr valName : String) (capacityGB : Int)
    (owner crossZone token zone volType : String) : String :=
  "http://" ++ addr ++ "/admin/createVol?name=" ++ valName ++
    "&capacity=" ++ toString capacityGB ++ "&owner=" ++ owner ++
    "&crossZone=" ++ crossZone ++ "&enableToken=" ++ token ++
    "&zoneName=" ++ zone ++ "&volType=" ++ volType

/-- The body of `createVolume`'s per-address attempt after
`executeRequest` has produced its outcome: transport errors propagate;
code 0 succeeds; the duplicate-volume code succeeds (idempotent create);
any other code is an error. -/
def createVolumeAttempt (url : String)
    (resp : Except CfsError cfsServerResponse) : Option CfsError :=
  match resp with
  | .error e => some e
  | .ok r =>
    if r.code ≠ 0 then
      if r.code = ErrCodeDuplicateVol then none
      else some (.generic ("create volume failed: url(" ++ url ++ ") code=(" ++
        toString r.code ++ "), msg: " ++ r.msg))
    else none

/-- Embeds `cfsServer.createVolume` (cfs_server.go lines 131-159).  `http` is the
oracle standing for `executeRequest`: it maps a URL to the decoded
response or the transport-level error `executeRequest` returns for it. -/
def cfsServer.createVolume (cs : cfsServer)
    (http : String → Except CfsError cfsServerResponse) (capacityGB : Int) :
    Option CfsError :=
  let valName := cs.clientConf.get KVolumeName
  let owner := cs.clientConf.get KOwner
  let crossZone := cs.clientConf.get KCrossZone
  let token := cs.clientConf.get KEnableToken
  let zone := cs.clientConf.get KZoneName
  let volType := cs.clientConf.get KVolType
  (cs.forEachMasterAddr "CreateVolume" (fun addr =>
    let url := createVolUrl addr valName capacityGB owner crossZone token zone volType
    createVolumeAttempt url (http url))).1

/-- Embeds `cfsServer.getOwnerMd5` (cfs_server.go lines 253-261).  `md5hex`
stands for hex-encoded MD5, an external crypto primitive; `hash.Hash.Write`
is documented never to return an error, so the source's error branch is
dead and the embedding always succeeds. -/
def cfsServer.getOwnerMd5 (cs : cfsServer) (md5hex : String → String) :
    Except CfsError String :=
  .ok (md5hex (cs.clientConf.get KOwner))

/-- The URL built by `deleteVolume` for one master address. -/
def deleteVolUrl (addr valName ownerMd5 : String) : String :=
  "http://" ++ addr ++ "/vol/delete?name=" ++ valName ++ "&authKey=" ++ ownerMd5

/-- The body of `deleteVolume`'s per-address attempt after
`executeRequest` has produced its outcome: transport errors propagate;
code 0 succeeds; the volume-not-found code succeeds (idempotent delete);
any other code is an error. -/
def deleteVolumeAttempt (valName : String)
    (resp : Except CfsError cfsServerResponse) : Option CfsError :=
  match resp with
  | .error e => some e
  | .ok r =>
    if r.code ≠ 0 then
      if r.code = ErrCodeVolNotExists then none
      else some (.generic ("delete volume[" ++ valName ++ "] is failed. code:" ++
        toString r.code ++ ", msg:" ++ r.msg))
    else none

/-- Embeds `cfsServer.deleteVolume` (cfs_server.go lines 178-204), with the same
`http` oracle for `executeRequest` and `md5hex` for the MD5 primitive. -/
def cfsServer.deleteVolume (cs : cfsServer) (md5hex : String → String)
    (http : String → Except CfsError cfsServerResponse) : Option CfsError :=
  match cs.getOwnerMd5 md5hex with
  | .error e => some e
  | .ok ownerMd5 =>
    let valName := cs.clientConf.get KVolumeName
    (cs.forEachMasterAddr "DeleteVolume" (fun addr =>
      let url := deleteVolUrl addr valName ownerMd5
      deleteVolumeAttempt valName (http url))).1

/-- Unfolding equation for the failover loop on a non-empty list. -/
theorem forEachMasterAddrGo_cons (f : String → Option CfsError)
    (addr : String) (rest : List String) (init : Option CfsError) :
    forEachMasterAddrGo f (addr :: rest) init =
      match f addr with
      | none => (none, [addr])
      | some e =>
        ((forEachMasterAddrGo f rest (some e)).1,
          addr :: (forEachMasterAddrGo f rest (some e)).2) := rfl

/-- If some address in the list succeeds, the failover loop reports
success, whatever the incoming error state. -/
theorem forEachMasterAddrGo_success (f : String → Option CfsError)
    (l : List String) (init : Option CfsError)
    (h : ∃ a ∈ l, f a = none) :
    (forEachMasterAddrGo f l init).1 = none := by
  induction l generalizing init with
  | nil => rcases h with ⟨a, ha, _⟩; cases ha
  | cons x rest ih =>
    rcases h with ⟨a, ha, hfa⟩
    rw [forEachMasterAddrGo_cons]
    cases hx : f x with
    | none => rfl
    | some e =>
      rcases List.mem_cons.mp ha with rfl | hmem
      · rw [hx] at hfa; cases hfa
      · exact ih (some e) ⟨a, hmem, hfa⟩

/-- If every address in a non-empty list fails, the failover loop returns
the last address's error. -/
theorem forEachMasterAddrGo_allFail (f : String → Option CfsError)
    (l : List String) (init : Option CfsError) (hne : l ≠ [])
    (h : ∀ a ∈ l, f a ≠ none) :
    (forEachMasterAddrGo f l init).1 = f (l.getLast hne) := by
  induction l generalizing init with
  | nil => cases hne rfl
  | cons x rest ih =>
    rw [forEachMasterAddrGo_cons]
    cases hx : f x with
    | none => exact absurd hx (h x (List.mem_cons_self x rest))
    | some e =>
      cases rest with
      | nil => simp [forEachMasterAddrGo, List.getLast, hx]
      | cons y ys =>
        have hr : ∀ a ∈ y :: ys, f a ≠ none := fun a ha =>
          h a (List.mem_cons_of_mem x ha)
        simpa [List.getLast] using ih (some e) (List.cons_ne_nil y ys) hr

/-- If every address before `a` fails and `a` succeeds, the failover loop
reports success and the attempted addresses are exactly the failing prefix
followed by `a`: later addresses are never tried. -/
theorem forEachMasterAddrGo_firstSuccess (f : String → Option CfsError)
    (l₁ : List String) (a : String) (l₂ : List String) (init : Option CfsError)
    (h₁ : ∀ x ∈ l₁, f x ≠ none) (ha : f a = none) :
    forEachMasterAddrGo f (l₁ ++ a :: l₂) init = (none, l₁ ++ [a]) := by
  induction l₁ generalizing init with
  | nil => simp [forEachMasterAddrGo, ha]
  | cons x rest ih =>
    rw [List.cons_append, forEachMasterAddrGo_cons]
    cases hx : f x with
    | none => exact absurd hx (h₁ x (List.mem_cons_self x rest))
    | some e =>
      have hr : ∀ y ∈ rest, f y ≠ none := fun y hy =>
        h₁ y (List.mem_cons_of_mem x hy)
      simp [ih (some e) hr]

/-- Claim C4: `forEachMasterAddr` invokes the attempt function on the
endpoints in list order; it stops at the first endpoint whose attempt
returns no error and returns success without trying later endpoints, and
if every endpoint's attempt returns an error it returns exactly the error
from the last endpoint in the list. -/
theorem claim_C4_forEachMasterAddr_failover (cs : cfsServer) (stage : String)
    (f : String → Option CfsError) :
    (∀ l₁ a l₂, cs.masterAddrs = l₁ ++ a :: l₂ →
        (∀ x ∈ l₁, f x ≠ none) → f a = none →
        cs.forEachMasterAddr stage f = (none, l₁ ++ [a]))
    ∧ (∀ hne : cs.masterAddrs ≠ [], (∀ x ∈ cs.masterAddrs, f x ≠ none) →
        (cs.forEachMasterAddr stage f).1 = f (cs.masterAddrs.getLast hne)) := by
  constructor
  · intro l₁ a l₂ hsplit h₁ ha
    unfold cfsServer.forEachMasterAddr
    rw [hsplit]
    exact forEachMasterAddrGo_firstSuccess f l₁ a l₂ none h₁ ha
  · intro hne h
    unfold cfsServer.forEachMasterAddr
    exact forEachMasterAddrGo_allFail f cs.masterAddrs none hne h

/-- Witness for claim C4: three endpoints, the first two failing and the
third succeeding — the loop succeeds having tried exactly the first
three addresses in order. -/
theorem claim_C4_forEachMasterAddr_failover_witness :
    cfsServer.forEachMasterAddr
      { clientConfFile := "", masterAddrs := ["m1", "m2", "m3"], clientConf := fun _ => "" }
      "CreateVolume"
      (fun a => if a = "m3" then none else some (.generic a)) =
      (none, ["m1", "m2"] ++ ["m3"]) :=
  (claim_C4_forEachMasterAddr_failover
      { clientConfFile := "", masterAddrs := ["m1", "m2", "m3"], clientConf := fun _ => "" }
      "CreateVolume"
      (fun a => if a = "m3" then none else some (.generic a))).1
    ["m1", "m2"] "m3" [] rfl (by decide) (by decide)

/-- Claim C9: on an empty endpoint list `forEachMasterAddr` returns
success without invoking the attempt function at all, and consequently a
`createVolume` over an empty `masterAddrs` reports success with no cluster
interaction. -/
theorem claim_C9_empty_masterAddrs (cs : cfsServer) (stage : String)
    (f : String → Option CfsError)
    (http : String → Except CfsError cfsServerResponse) (capacityGB : Int)
    (h : cs.masterAddrs = []) :
    cs.forEachMasterAddr stage f = (none, []) ∧
      cs.createVolume http capacityGB = none := by
  constructor
  · unfold cfsServer.forEachMasterAddr
    rw [h]
    rfl
  · unfold cfsServer.createVolume cfsServer.forEachMasterAddr
    rw [h]
    rfl

/-- Witness for claim C9: a server with an empty endpoint list. -/
theorem claim_C9_empty_masterAddrs_witness :
    cfsServer.forEachMasterAddr
        { clientConfFile := "", masterAddrs := [], clientConf := fun _ => "" }
        "DeleteVolume" (fun a => some (.generic a)) = (none, []) ∧
      cfsServer.createVolume
        { clientConfFile := "", masterAddrs := [], clientConf := fun _ => "" }
        (fun _ => .ok { code := 1, msg := "", data := "" }) 10 = none :=
  claim_C9_empty_masterAddrs
    { clientConfFile := "", masterAddrs := [], clientConf := fun _ => "" }
    "DeleteVolume" (fun a => some (.generic a))
    (fun _ => .ok { code := 1, msg := "", data := "" }) 10 rfl

/-- Claim C2: whenever some endpoint's create request decodes to a
response carrying the duplicate-volume code (12), `createVolume` returns
success (no error): a repeated create for an existing name converges to
success. -/
theorem claim_C2_createVolume_duplicate_is_success (cs : cfsServer)
    (http : String → Except CfsError cfsServerResponse) (capacityGB : Int)
    (h : ∃ addr ∈ cs.masterAddrs, ∃ r,
      http (createVolUrl addr (cs.clientConf.get KVolumeName) capacityGB
        (cs.clientConf.get KOwner) (cs.clientConf.get KCrossZone)
        (cs.clientConf.get KEnableToken) (cs.clientConf.get KZoneName)
        (cs.clientConf.get KVolType)) = .ok r ∧ r.code = ErrCodeDuplicateVol) :
    cs.createVolume http capacityGB = none := by
  rcases h with ⟨addr, hmem, r, hok, hcode⟩
  unfold cfsServer.createVolume cfsServer.forEachMasterAddr
  apply forEachMasterAddrGo_success
  refine ⟨addr, hmem, ?_⟩
  simp only [createVolumeAttempt, hok, hcode]
  norm_num [ErrCodeDuplicateVol]

/-- Witness for claim C2: one endpoint whose reply has code 12. -/
theorem claim_C2_createVolume_duplicate_is_success_witness :
    cfsServer.createVolume
      { clientConfFile := "", masterAddrs := ["m1"], clientConf := fun _ => "" }
      (fun _ => .ok { code := 12, msg := "duplicate vol", data := "" }) 30 = none :=
  claim_C2_createVolume_duplicate_is_success
    { clientConfFile := "", masterAddrs := ["m1"], clientConf := fun _ => "" }
    (fun _ => .ok { code := 12, msg := "duplicate vol", data := "" }) 30
    ⟨"m1", by decide, { code := 12, msg := "duplicate vol", data := "" }, rfl, rfl⟩

/-- Claim C3: whenever some endpoint's delete request decodes to a
response carrying the volume-not-found code (7), `deleteVolume` returns
success; and when every endpoint's delete request decodes to a response
whose code is non-zero and different from 7, `deleteVolume` returns an
error. -/
theorem claim_C3_deleteVolume_notfound_is_success (cs : cfsServer)
    (md5hex : String → String)
    (http : String → Except CfsError cfsServerResponse) :
    ((∃ addr ∈ cs.masterAddrs, ∃ r,
        http (deleteVolUrl addr (cs.clientConf.get KVolumeName)
          (md5hex (cs.clientConf.get KOwner))) = .ok r ∧
          r.code = ErrCodeVolNotExists) →
      cs.deleteVolume md5hex http = none)
    ∧ (cs.masterAddrs ≠ [] →
      (∀ addr ∈ cs.masterAddrs, ∃ r,
        http (deleteVolUrl addr (cs.clientConf.get KVolumeName)
          (md5hex (cs.clientConf.get KOwner))) = .ok r ∧
          r.code ≠ 0 ∧ r.code ≠ ErrCodeVolNotExists) →
      cs.deleteVolume md5hex http ≠ none)
    ∧ (∀ r : cfsServerResponse, ∀ valName, r.code ≠ 0 →
        r.code ≠ ErrCodeVolNotExists →
        deleteVolumeAttempt valName (.ok r) ≠ none) := by
  refine ⟨?_, ?_, ?_⟩
  · intro h
    rcases h with ⟨addr, hmem, r, hok, hcode⟩
    unfold cfsServer.deleteVolume cfsServer.getOwnerMd5 cfsServer.forEachMasterAddr
    apply forEachMasterAddrGo_success
    refine ⟨addr, hmem, ?_⟩
    simp only [deleteVolumeAttempt, hok, hcode]
    norm_num [ErrCodeVolNotExists]
  · intro hne h
    have hfail : ∀ a ∈ cs.masterAddrs,
        deleteVolumeAttempt (cs.clientConf.get KVolumeName)
          (http (deleteVolUrl a (cs.clientConf.get KVolumeName)
            (md5hex (cs.clientConf.get KOwner)))) ≠ none := by
      intro a ha
      rcases h a ha with ⟨r, hok, h0, h7⟩
      simp only [deleteVolumeAttempt, hok]
      simp [h0, h7]
    unfold cfsServer.deleteVolume cfsServer.getOwnerMd5 cfsServer.forEachMasterAddr
    show (forEachMasterAddrGo
        (fun addr => deleteVolumeAttempt (cs.clientConf.get KVolumeName)
          (http (deleteVolUrl addr (cs.clientConf.get KVolumeName)
            (md5hex (cs.clientConf.get KOwner)))))
        cs.masterAddrs none).1 ≠ none
    rw [forEachMasterAddrGo_allFail _ _ _ hne hfail]
    exact hfail _ (List.getLast_mem hne)
  · intro r valName h0 h7
    simp only [deleteVolumeAttempt]
    simp [h0, h7]

/-- Witness for claim C3: a not-found reply (code 7) yields success, and a
reply with code 9 on every endpoint yields an error. -/
theorem claim_C3_deleteVolume_notfound_is_success_witness :
    cfsServer.deleteVolume
        { clientConfFile := "", masterAddrs := ["m1"], clientConf := fun _ => "" }
        (fun _ => "digest")
        (fun _ => .ok { code := 7, msg := "vol not exists", data := "" }) = none ∧
      cfsServer.deleteVolume
        { clientConfFile := "", masterAddrs := ["m1"], clientConf := fun _ => "" }
        (fun _ => "digest")
        (fun _ => .ok { code := 9, msg := "other failure", data := "" }) ≠ none ∧
      deleteVolumeAttempt "v"
        (.ok { code := 9, msg := "other failure", data := "" }) ≠ none :=
  ⟨(claim_C3_deleteVolume_notfound_is_success
        { clientConfFile := "", masterAddrs := ["m1"], clientConf := fun _ => "" }
        (fun _ => "digest")
        (fun _ => .ok { code := 7, msg := "vol not exists", data := "" })).1
      ⟨"m1", by decide, { code := 7, msg := "vol not exists", data := "" }, rfl, rfl⟩,
    (claim_C3_deleteVolume_notfound_is_success
        { clientConfFile := "", masterAddrs := ["m1"], clientConf := fun _ => "" }
        (fun _ => "digest")
        (fun _ => .ok { code := 9, msg := "other failure", data := "" })).2.1
      (by decide)
      (fun addr _ =>
        ⟨{ code := 9, msg := "other failure", data := "" }, rfl, by decide, by decide⟩),
    (claim_C3_deleteVolume_notfound_is_success
        { clientConfFile := "", masterAddrs := ["m1"], clientConf := fun _ => "" }
        (fun _ => "digest")
        (fun _ => .ok { code := 9, msg := "other failure", data := "" })).2.2
      { code := 9, msg := "other failure", data := "" } "v" (by decide) (by decide)⟩

/-- Claim C7: given a non-empty volume name and a parameter map with a
non-empty master address, the normalizer replaces every defaulted key that
is absent or empty in the input with its computed default, never
overwrites a caller-provided non-empty value, leaves unrelated keys
untouched — with the single exception of the log-directory key, which is
always set to the default log path joined with the final volume name. -/
theorem claim_C7_normalizer_defaulting (volName : String) (param : StrMap)
    (nowNano : Int) (hv : volName.length ≠ 0)
    (hm : (param.get KMasterAddr).length ≠ 0) :
    ∃ cs, newCfsServer volName param nowNano = .ok cs
      ∧ (∀ k, k ≠ KMasterAddr → k ≠ KVolumeName → k ≠ KOwner → k ≠ KLogLevel →
          k ≠ KLogDir → k ≠ KConsulAddr → k ≠ KVolType →
          cs.clientConf.get k = param.get k)
      ∧ cs.clientConf.get KMasterAddr = param.get KMasterAddr
      ∧ ((param.get KVolumeName).length ≠ 0 →
          cs.clientConf.get KVolumeName = param.get KVolumeName)
      ∧ ((param.get KVolumeName).length = 0 →
          cs.clientConf.get KVolumeName = volName)
      ∧ ((param.get KOwner).length ≠ 0 →
          cs.clientConf.get KOwner = param.get KOwner)
      ∧ ((param.get KOwner).length = 0 →
          cs.clientConf.get KOwner = ShortenString ("csi_" ++ toString nowNano) 20)
      ∧ ((param.get KLogLevel).length ≠ 0 →
          cs.clientConf.get KLogLevel = param.get KLogLevel)
      ∧ ((param.get KLogLevel).length = 0 →
          cs.clientConf.get KLogLevel = defaultLogLevel)
      ∧ ((param.get KConsulAddr).length ≠ 0 →
          cs.clientConf.get KConsulAddr = param.get KConsulAddr)
      ∧ ((param.get KConsulAddr).length = 0 →
          cs.clientConf.get KConsulAddr = defaultConsulAddr)
      ∧ ((param.get KVolType).length ≠ 0 →
          cs.clientConf.get KVolType = param.get KVolType)
      ∧ ((param.get KVolType).length = 0 →
          cs.clientConf.get KVolType = defaultVolType)
      ∧ cs.clientConf.get KLogDir =
          defaultLogDir ++ getValueWithDefault param KVolumeName volName := by
  have hcond : ¬(volName.length = 0 ∨ (param.get KMasterAddr).length = 0) := by
    push_neg
    exact ⟨hv, hm⟩
  simp only [newCfsServer]
  rw [if_neg hcond]
  refine ⟨_, rfl, ?_, ?_, ?_, ?_, ?_, ?_, ?_, ?_, ?_, ?_, ?_, ?_, ?_⟩
  · intro k h1 h2 h3 h4 h5 h6 h7
    simp only [KMasterAddr, KVolumeName, KOwner, KLogLevel, KLogDir, KConsulAddr,
      KVolType] at h1 h2 h3 h4 h5 h6 h7
    simp [StrMap.set, StrMap.get, getValueWithDefault, KMasterAddr, KVolumeName,
      KOwner, KLogLevel, KLogDir, KConsulAddr, KVolType, h1, h2, h3, h4, h5, h6, h7]
  · simp [StrMap.set, StrMap.get, getValueWithDefault, KMasterAddr, KVolumeName,
      KOwner, KLogLevel, KLogDir, KConsulAddr, KVolType]
  · intro hnz
    simp only [StrMap.get, KMasterAddr, KVolumeName, KOwner, KLogLevel, KLogDir,
      KConsulAddr, KVolType] at hnz
    simp [StrMap.set, StrMap.get, getValueWithDefault, KMasterAddr, KVolumeName,
      KOwner, KLogLevel, KLogDir, KConsulAddr, KVolType, hnz]
  · intro hz
    simp only [StrMap.get, KMasterAddr, KVolumeName, KOwner, KLogLevel, KLogDir,
      KConsulAddr, KVolType] at hz
    simp [StrMap.set, StrMap.get, getValueWithDefault, KMasterAddr, KVolumeName,
      KOwner, KLogLevel, KLogDir, KConsulAddr, KVolType, hz]
  · intro hnz
    simp only [StrMap.get, KMasterAddr, KVolumeName, KOwner, KLogLevel, KLogDir,
      KConsulAddr, KVolType] at hnz
    simp [StrMap.set, StrMap.get, getValueWithDefault, KMasterAddr, KVolumeName,
      KOwner, KLogLevel, KLogDir, KConsulAddr, KVolType, hnz]
  · intro hz
    simp only [StrMap.get, KMasterAddr, KVolumeName, KOwner, KLogLevel, KLogDir,
      KConsulAddr, KVolType] at hz
    simp [StrMap.set, StrMap.get, getValueWithDefault, KMasterAddr, KVolumeName,
      KOwner, KLogLevel, KLogDir, KConsulAddr, KVolType, hz]
  · intro hnz
    simp only [StrMap.get, KMasterAddr, KVolumeName, KOwner, KLogLevel, KLogDir,
      KConsulAddr, KVolType] at hnz
    simp [StrMap.set, StrMap.get, getValueWithDefault, KMasterAddr, KVolumeName,
      KOwner, KLogLevel, KLogDir, KConsulAddr, KVolType, hnz]
  · intro hz
    simp only [StrMap.get, KMasterAddr, KVolumeName, KOwner, KLogLevel, KLogDir,
      KConsulAddr, KVolType] at hz
    simp [StrMap.set, StrMap.get, getValueWithDefault, KMasterAddr, KVolumeName,
      KOwner, KLogLevel, KLogDir, KConsulAddr, KVolType, hz, defaultLogLevel]
  · intro hnz
    simp only [StrMap.get, KMasterAddr, KVolumeName, KOwner, KLogLevel, KLogDir,
      KConsulAddr, KVolType] at hnz
    simp [StrMap.set, StrMap.get, getValueWithDefault, KMasterAddr, KVolumeName,
      KOwner, KLogLevel, KLogDir, KConsulAddr, KVolType, hnz]
  · intro hz
    simp only [StrMap.get, KMasterAddr, KVolumeName, KOwner, KLogLevel, KLogDir,
      KConsulAddr, KVolType] at hz
    simp [StrMap.set, StrMap.get, getValueWithDefault, KMasterAddr, KVolumeName,
      KOwner, KLogLevel, KLogDir, KConsulAddr, KVolType, hz, defaultConsulAddr]
  · intro hnz
    simp only [StrMap.get, KMasterAddr, KVolumeName, KOwner, KLogLevel, KLogDir,
      KConsulAddr, KVolType] at hnz
    simp [StrMap.set, StrMap.get, getValueWithDefault, KMasterAddr, KVolumeName,
      KOwner, KLogLevel, KLogDir, KConsulAddr, KVolType, hnz]
  · intro hz
    simp only [StrMap.get, KMasterAddr, KVolumeName, KOwner, KLogLevel, KLogDir,
      KConsulAddr, KVolType] at hz
    simp [StrMap.set, StrMap.get, getValueWithDefault, KMasterAddr, KVolumeName,
      KOwner, KLogLevel, KLogDir, KConsulAddr, KVolType, hz, defaultVolType]
  · simp [StrMap.set, StrMap.get, getValueWithDefault, KMasterAddr, KVolumeName,
      KOwner, KLogLevel, KLogDir, KConsulAddr, KVolType]

end cubefs

namespace chubaofs

/-- Arithmetic of the capacity rounding: for a capacity of at least one
GiB within the `int64` range, `RoundUpSizeInt` succeeds, and its result is
the number of GiB units of the smallest whole multiple of a GiB that is at
least the capacity. -/
theorem RoundUpSizeInt_spec (c : Int) (h1 : GIB ≤ c) (h2 : c < 2 ^ 63) :
    ∃ g, RoundUpSizeInt c GIB = .ok g ∧ c ≤ g * GIB ∧ (g - 1) * GIB < c ∧
      (c = GIB → g = 1) := by
  have hc0 : (0 : Int) ≤ c := le_trans (by norm_num [GIB]) h1
  have ht : c.tdiv GIB = c / GIB := Int.tdiv_eq_ediv hc0 (by norm_num [GIB])
  have tm : c.tmod GIB = c % GIB := Int.tmod_eq_emod hc0 (by norm_num [GIB])
  have hg : RoundUpSize c GIB =
      if c % GIB > 0 then c / GIB + 1 else c / GIB := by
    unfold RoundUpSize
    rw [ht, tm]
  refine ⟨RoundUpSize c GIB, ?_, ?_, ?_, ?_⟩
  · unfold RoundUpSizeInt
    rw [if_neg]
    rw [hg]
    simp only [GIB] at h1 h2 ⊢
    split <;> omega
  · rw [hg]
    simp only [GIB] at h1 h2 ⊢
    split <;> omega
  · rw [hg]
    simp only [GIB] at h1 h2 ⊢
    split <;> omega
  · intro hce
    rw [hg, hce]
    norm_num [GIB]

/-- Claim C1: every capacity value handed to the cluster by
`CreateVolume` is obtained by flooring the request's required-bytes at the
minimum volume size (one GiB) and rounding up to the smallest whole
multiple of a GiB at least that floored value; in particular a request
below one GiB is sent as exactly one GiB unit. -/
theorem claim_C1_capacity_rounding (cs : controllerServer)
    (cluster : ClusterCall → Option GoError) (req : CreateVolumeRequest)
    (hr : req.getRequiredBytes < 2 ^ 63)
    (call : ClusterCall) (hmem : call ∈ (cs.CreateVolume cluster req).2) :
    (if req.getRequiredBytes < MinVolumeSize then MinVolumeSize
      else req.getRequiredBytes) ≤ call.capacityGIB * GIB
    ∧ (call.capacityGIB - 1) * GIB <
      (if req.getRequiredBytes < MinVolumeSize then MinVolumeSize
        else req.getRequiredBytes)
    ∧ (req.getRequiredBytes < GIB → call.capacityGIB = 1) := by
  have hfloor : GIB ≤ (if req.getRequiredBytes < MinVolumeSize then MinVolumeSize
      else req.getRequiredBytes) := by
    unfold MinVolumeSize
    split <;> omega
  have hlt : (if req.getRequiredBytes < MinVolumeSize then MinVolumeSize
      else req.getRequiredBytes) < 2 ^ 63 := by
    unfold MinVolumeSize at *
    split
    · norm_num [GIB]
    · exact hr
  rcases RoundUpSizeInt_spec _ hfloor hlt with ⟨g, hok, hle, hlt2, hone⟩
  rcases hval : cs.validateControllerServiceRequest .CREATE_DELETE_VOLUME with _ | e
  · by_cases hname : req.name.length = 0
    · simp only [controllerServer.CreateVolume, hval, if_pos hname] at hmem
      simp at hmem
    · rcases hcaps : req.volumeCapabilities with _ | caps
      · simp only [controllerServer.CreateVolume, hval, if_neg hname, hcaps] at hmem
        simp at hmem
      · rcases hsel : selectMountOptions caps with _ | mo
        · simp only [controllerServer.CreateVolume, hval, if_neg hname, hcaps,
            hsel] at hmem
          simp at hmem
        · by_cases hfs : mo.fsType ≠ "chubaofs"
          · simp only [controllerServer.CreateVolume, hval, if_neg hname, hcaps,
              hsel, if_pos hfs] at hmem
            simp at hmem
          · rcases hclu : cluster ⟨false, cs.masterAddress, req.name, defaultOwner, g⟩
              with _ | e2
            all_goals
              simp only [controllerServer.CreateVolume, hval, if_neg hname, hcaps,
                hsel, if_neg hfs, hok, hclu] at hmem
            all_goals simp at hmem
            all_goals rw [hmem]
            all_goals
              exact ⟨hle, hlt2, fun hsmall => hone (by
                simp only [MinVolumeSize]
                rw [if_pos hsmall])⟩
  · simp only [controllerServer.CreateVolume, hval] at hmem
    simp at hmem

/-- Witness for claim C1: a 5-byte request is sent as one GiB unit. -/
theorem claim_C1_capacity_rounding_witness :
    (if (5 : Int) < MinVolumeSize then MinVolumeSize else (5 : Int)) ≤ 1 * GIB
    ∧ ((1 : Int) - 1) * GIB <
      (if (5 : Int) < MinVolumeSize then MinVolumeSize else (5 : Int))
    ∧ ((5 : Int) < GIB → (1 : Int) = 1) :=
  claim_C1_capacity_rounding (NewControllerServer "m:17010") (fun _ => none)
    ⟨"vol1", some ⟨5⟩, some [⟨some ⟨"chubaofs"⟩, none⟩], []⟩
    (by decide)
    ⟨false, "m:17010", "vol1", "chubaofs", 1⟩
    (by decide)

end chubaofs

namespace chubaofs

/-- The only error `validateControllerServiceRequest` produces is the
`InvalidArgument` unsupported-capability status. -/
theorem validateControllerServiceRequest_some (cs : controllerServer)
    (c : RpcType) (e : GoError)
    (h : cs.validateControllerServiceRequest c = some e) :
    e = .grpc .invalidArgument ("unsupported capability " ++ c.toName) := by
  unfold controllerServer.validateControllerServiceRequest at h
  split at h
  · cases h
  · split at h
    · cases h
    · injection h with h2
      exact h2.symm

/-- The mount-selection fold returns its accumulator when no capability in
the list carries a mount access type. -/
theorem selectMountOptions_foldl_id (caps : List VolumeCapability) :
    ∀ acc : Option MountVolume, (∀ c ∈ caps, c.mount = none) →
      caps.foldl (fun acc c => match c.mount with | some m => some m | none => acc)
        acc = acc := by
  induction caps with
  | nil => intro acc _; rfl
  | cons c rest ih =>
    intro acc h
    have hc : c.mount = none := h c (List.mem_cons_self c rest)
    simp only [List.foldl_cons, hc]
    exact ih acc (fun x hx => h x (List.mem_cons_of_mem c hx))

/-- A capability list without any mount access type selects no mount
options. -/
theorem selectMountOptions_eq_none (caps : List VolumeCapability)
    (h : ∀ c ∈ caps, c.mount = none) : selectMountOptions caps = none :=
  selectMountOptions_foldl_id caps none h

/-- Claim C5: a `CreateVolume` request whose capability list is missing,
contains no capability with a mount specification, or whose selected mount
filesystem type is not exactly `"chubaofs"`, is rejected with an
`InvalidArgument` error and no cluster call is made. -/
theorem claim_C5_invalid_capabilities_rejected (cs : controllerServer)
    (cluster : ClusterCall → Option GoError) (req : CreateVolumeRequest)
    (h : req.volumeCapabilities = none
      ∨ (∃ caps, req.volumeCapabilities = some caps ∧ ∀ c ∈ caps, c.mount = none)
      ∨ (∃ caps m, req.volumeCapabilities = some caps ∧
          selectMountOptions caps = some m ∧ m.fsType ≠ "chubaofs")) :
    ∃ msg, cs.CreateVolume cluster req =
      (.error (.grpc .invalidArgument msg), []) := by
  rcases hval : cs.validateControllerServiceRequest .CREATE_DELETE_VOLUME with _ | e
  · by_cases hname : req.name.length = 0
    · exact ⟨"Name missing in request",
        by simp only [controllerServer.CreateVolume, hval, if_pos hname]⟩
    · rcases h with h1 | ⟨caps, hcaps, hall⟩ | ⟨caps, m, hcaps, hsel, hfs⟩
      · exact ⟨"Volume Capabilities missing in request",
          by simp only [controllerServer.CreateVolume, hval, if_neg hname, h1]⟩
      · exact ⟨"Volume lack of mount access type",
          by simp only [controllerServer.CreateVolume, hval, if_neg hname, hcaps,
            selectMountOptions_eq_none caps hall]⟩
      · exact ⟨"Volume fstype is not chubaofs",
          by simp only [controllerServer.CreateVolume, hval, if_neg hname, hcaps,
            hsel, if_pos hfs]⟩
  · refine ⟨"unsupported capability " ++ RpcType.toName .CREATE_DELETE_VOLUME, ?_⟩
    simp only [controllerServer.CreateVolume, hval]
    rw [validateControllerServiceRequest_some cs _ e hval]

/-- Witness for claim C5: a request with a nil capability list is rejected
with `InvalidArgument` and an empty cluster-call trace. -/
theorem claim_C5_invalid_capabilities_rejected_witness :
    ∃ msg, controllerServer.CreateVolume (NewControllerServer "m:17010")
      (fun _ => none) ⟨"vol1", some ⟨1024⟩, none, []⟩ =
      (.error (.grpc .invalidArgument msg), []) :=
  claim_C5_invalid_capabilities_rejected (NewControllerServer "m:17010")
    (fun _ => none) ⟨"vol1", some ⟨1024⟩, none, []⟩ (Or.inl rfl)

/-- Counterexample to claim C6 as stated: for a request of one GiB plus
one byte, the cluster is sent 2 GiB units but the returned descriptor
carries 1073741825 bytes — the pre-rounding floored value, which is not a
whole multiple of a GiB and differs from the value sent to the cluster. -/
theorem claim_C6_counterexample :
    controllerServer.CreateVolume (NewControllerServer "m:17010") (fun _ => none)
        ⟨"vol1", some ⟨1073741825⟩, some [⟨some ⟨"chubaofs"⟩, none⟩], []⟩ =
      (.ok ⟨⟨"vol1", 1073741825, []⟩⟩, [⟨false, "m:17010", "vol1", "chubaofs", 2⟩])
    ∧ (1073741825 : Int) ≠ 2 * GIB
    ∧ (1073741825 : Int) % GIB ≠ 0 :=
  ⟨by rfl, by decide, by decide⟩

/-- Claim C6 as amended: every successful `CreateVolume` returns a
descriptor carrying the request's name, the required-bytes floored at one
GiB (the pre-round-up byte value, not necessarily a whole GiB multiple),
and the caller's parameter map unchanged. -/
theorem claim_C6_amended_descriptor (cs : controllerServer)
    (cluster : ClusterCall → Option GoError) (req : CreateVolumeRequest)
    (resp : CreateVolumeResponse) (calls : List ClusterCall)
    (h : cs.CreateVolume cluster req = (.ok resp, calls)) :
    resp.volume.volumeId = req.name
    ∧ resp.volume.capacityBytes =
      (if req.getRequiredBytes < MinVolumeSize then MinVolumeSize
        else req.getRequiredBytes)
    ∧ resp.volume.volumeContext = req.parameters := by
  simp only [controllerServer.CreateVolume] at h
  repeat' split at h
  all_goals try simp_all
  all_goals obtain ⟨h1, h2⟩ := h
  all_goals subst h1
  all_goals refine ⟨rfl, ?_, rfl⟩
  all_goals try simp_all
  all_goals rw [if_neg (by omega)]

/-- Witness for claim C6 (amended): the same one-GiB-plus-one-byte
request, whose descriptor carries the floored (unrounded) capacity. -/
theorem claim_C6_amended_descriptor_witness :
    ("vol1" : String) = "vol1"
    ∧ (1073741825 : Int) =
      (if (1073741825 : Int) < MinVolumeSize then MinVolumeSize
        else (1073741825 : Int))
    ∧ ([] : List (String × String)) = [] :=
  claim_C6_amended_descriptor (NewControllerServer "m:17010") (fun _ => none)
    ⟨"vol1", some ⟨1073741825⟩, some [⟨some ⟨"chubaofs"⟩, none⟩], []⟩
    ⟨⟨"vol1", 1073741825, []⟩⟩
    [⟨false, "m:17010", "vol1", "chubaofs", 2⟩]
    (by rfl)

/-- Claim C8: the seven non-lifecycle operations return an `Unimplemented`
status error (and hence no response value) on every input. -/
theorem claim_C8_unimplemented_operations (cs : controllerServer)
    (r1 : ControllerPublishVolumeRequest) (r2 : ControllerUnpublishVolumeRequest)
    (r3 : GetCapacityRequest) (r4 : ListVolumesRequest)
    (r5 : CreateSnapshotRequest) (r6 : DeleteSnapshotRequest)
    (r7 : ListSnapshotsRequest) :
    cs.ControllerPublishVolume r1 = .error (.grpc .unimplemented "")
    ∧ cs.ControllerUnpublishVolume r2 = .error (.grpc .unimplemented "")
    ∧ cs.GetCapacity r3 = .error (.grpc .unimplemented "")
    ∧ cs.ListVolumes r4 = .error (.grpc .unimplemented "")
    ∧ cs.CreateSnapshot r5 = .error (.grpc .unimplemented "")
    ∧ cs.DeleteSnapshot r6 = .error (.grpc .unimplemented "")
    ∧ cs.ListSnapshots r7 = .error (.grpc .unimplemented "") :=
  ⟨rfl, rfl, rfl, rfl, rfl, rfl, rfl⟩

/-- The capability-check loop accepts a list in which every capability has
the multi-node multi-writer access mode. -/
theorem validateCapsLoop_none (caps : List VolumeCapability)
    (h : ∀ c ∈ caps, c.getAccessModeMode = AccessModeMode.MULTI_NODE_MULTI_WRITER) :
    validateCapsLoop caps = none := by
  induction caps with
  | nil => rfl
  | cons c rest ih =>
    unfold validateCapsLoop
    rw [if_neg]
    · exact ih (fun x hx => h x (List.mem_cons_of_mem c hx))
    · simp [h c (List.mem_cons_self c rest)]

/-- The capability-check loop rejects a list containing a capability whose
access mode is not multi-node multi-writer. -/
theorem validateCapsLoop_some (caps : List VolumeCapability)
    (h : ∃ c ∈ caps, c.getAccessModeMode ≠ AccessModeMode.MULTI_NODE_MULTI_WRITER) :
    validateCapsLoop caps =
      some (.grpc .invalidArgument "No multi node multi writer capability") := by
  induction caps with
  | nil => rcases h with ⟨c, hc, _⟩; cases hc
  | cons c rest ih =>
    unfold validateCapsLoop
    by_cases hc : c.getAccessModeMode ≠ AccessModeMode.MULTI_NODE_MULTI_WRITER
    · rw [if_pos hc]
    · rw [if_neg hc]
      rcases h with ⟨x, hx, hmode⟩
      rcases List.mem_cons.mp hx with rfl | hxr
      · exact absurd hmode hc
      · exact ih ⟨x, hxr, hmode⟩

/-- Claim C10: `ValidateVolumeCapabilities` rejects with `InvalidArgument`
whenever some capability's access mode differs from multi-node
multi-writer, and otherwise (including an empty list) confirms, echoing
the request's volume context, capabilities and parameters unchanged. -/
theorem claim_C10_validate_volume_capabilities (cs : controllerServer)
    (req : ValidateVolumeCapabilitiesRequest) :
    ((∃ c ∈ req.volumeCapabilities,
        c.getAccessModeMode ≠ AccessModeMode.MULTI_NODE_MULTI_WRITER) →
      cs.ValidateVolumeCapabilities req =
        .error (.grpc .invalidArgument "No multi node multi writer capability"))
    ∧ ((∀ c ∈ req.volumeCapabilities,
        c.getAccessModeMode = AccessModeMode.MULTI_NODE_MULTI_WRITER) →
      cs.ValidateVolumeCapabilities req =
        .ok ⟨⟨req.volumeContext, req.volumeCapabilities, req.parameters⟩⟩) := by
  constructor
  · intro h
    unfold controllerServer.ValidateVolumeCapabilities
    rw [validateCapsLoop_some req.volumeCapabilities h]
  · intro h
    unfold controllerServer.ValidateVolumeCapabilities
    rw [validateCapsLoop_none req.volumeCapabilities h]

/-- Witness for claim C10: a single-writer capability is rejected; a
multi-node multi-writer capability is confirmed with the request data
echoed. -/
theorem claim_C10_validate_volume_capabilities_witness :
    controllerServer.ValidateVolumeCapabilities (NewControllerServer "m:17010")
        ⟨[], [⟨none, some ⟨.SINGLE_NODE_WRITER⟩⟩], []⟩ =
      .error (.grpc .invalidArgument "No multi node multi writer capability")
    ∧ controllerServer.ValidateVolumeCapabilities (NewControllerServer "m:17010")
        ⟨[("k", "v")], [⟨none, some ⟨.MULTI_NODE_MULTI_WRITER⟩⟩], [("p", "q")]⟩ =
      .ok ⟨⟨[("k", "v")], [⟨none, some ⟨.MULTI_NODE_MULTI_WRITER⟩⟩], [("p", "q")]⟩⟩ :=
  ⟨(claim_C10_validate_volume_capabilities (NewControllerServer "m:17010")
      ⟨[], [⟨none, some ⟨.SINGLE_NODE_WRITER⟩⟩], []⟩).1
    ⟨⟨none, some ⟨.SINGLE_NODE_WRITER⟩⟩, by decide, by decide⟩,
   (claim_C10_validate_volume_capabilities (NewControllerServer "m:17010")
      ⟨[("k", "v")], [⟨none, some ⟨.MULTI_NODE_MULTI_WRITER⟩⟩], [("p", "q")]⟩).2
    (by decide)⟩

end chubaofs

namespace cubefs

/-- Witness for claim C7: a map carrying only a master address gets the
always-derived log directory and the computed owner default. -/
theorem claim_C7_normalizer_defaulting_witness :
    ∃ cs, newCfsServer "v1"
        (fun k => if k = "masterAddr" then "host1:17010" else "") 7 = .ok cs
      ∧ cs.clientConf.get KLogDir = defaultLogDir ++
          getValueWithDefault
            (fun k => if k = "masterAddr" then "host1:17010" else "")
            KVolumeName "v1"
      ∧ cs.clientConf.get KOwner = ShortenString ("csi_" ++ toString (7 : Int)) 20 := by
  rcases claim_C7_normalizer_defaulting "v1"
      (fun k => if k = "masterAddr" then "host1:17010" else "") 7
      (by decide) (by decide) with
    ⟨cs, h1, h2, h3, h4, h5, h6, h7, h8, h9, h10, h11, h12, h13, h14⟩
  exact ⟨cs, h1, h14, h7 (by decide)⟩

end cubefs
